import Mathlib

/-!
Verification development for the promptql-chat-sdk streaming-session core.

The definitions below are a shallow embedding of the TypeScript source:

* `src/lib/utils/index.ts` — `isValidThreadId`, `convertThreadToMessages`;
* `src/lib/hooks/useSSEConnection.ts` — the synchronous fragment of
  `connect`, the `handleMessage` event parser, and the `readStream`
  line-splitting loop;
* the conversation reducer `handleSSEEvent` of the main component
  (also present, in the text-chunk part, in
  `src/lib/hooks/usePromptQLChat.ts`);
* `useThreadPersistence` — `setCurrentThreadId` and the load-on-mount
  effect, over an explicit (memory, storage-slot) state;
* the send/cancel orchestration (`handleSendMessage`,
  `handleCancelMessage` of the main component and `cancelMessage` of
  the headless hook), modelled as explicit step traces so that the
  ordering of synchronous state updates relative to the awaited
  network calls is observable.

JavaScript idioms are rendered as follows: truthiness checks on strings
become emptiness checks, `undefined` optional fields become `Option`,
JS objects used as string-keyed records become association lists whose
update preserves key insertion order, `Date` values become `Nat`
timestamps, and `JSON.parse` is an explicit `parse` parameter
(`String → Option SSEEvent`) since the code only branches on whether
parsing succeeds and on the discriminator of the parsed value.
-/

namespace PromptQLChat

/-! ### Data model (src/lib/types/index.ts) -/

/-- QueryPlan record (only the fields the reducer inspects matter here). -/
structure QueryPlan where
  id : String
  query : String
deriving DecidableEq, Repr

/-- CodeBlock record: one structured execution-trace fragment stream. -/
structure CodeBlock where
  id : String
  content : String
  streaming : Bool
deriving DecidableEq, Repr

/-- Message tagged union (`UserMessage | AssistantMessage`).
`codeBlocks` models the JS `Record<string, CodeBlock>` as an insertion
ordered association list; an absent (`undefined`) map is the empty list,
which is indistinguishable from `{}` for every operation the code
performs on it. -/
inductive Message where
  | user (id : String) (content : String) (timestamp : Nat)
  | assistant (id : String) (content : String) (timestamp : Nat)
      (queryPlan : Option QueryPlan)
      (codeBlocks : List (String × CodeBlock)) (streaming : Bool)
deriving DecidableEq, Repr

/-- Recognized streamed event kinds, after discriminator extraction
(`event.type || event.event`). -/
inductive SSEEvent where
  | assistantActionMessageAppended (assistantActionId : Option String)
      (messageChunk : String)
  | codeBlockQueryPlanAppended (codeBlockId : String) (queryPlanChunk : String)
  | currentThreadState
  | interactionUpdate
  | unknown
deriving DecidableEq, Repr

/-- The outer SSE event envelope: the reducer reads `created_at` from the
envelope and the payload fields from the nested event. -/
structure EventData where
  createdAt : Option Nat
  event : SSEEvent
deriving DecidableEq, Repr

/-- ConnectionState enum of the streaming session. -/
inductive ConnectionState where
  | disconnected
  | connecting
  | connected
  | error
  | reconnecting
deriving DecidableEq, Repr

/-! ### JS string primitives

The JS string methods the code relies on (`trim`, `startsWith`,
`slice`, `endsWith`, `split("\n")`) are rendered structurally over the
character list of the string, so every definition in this file can be
evaluated by the kernel on concrete inputs. -/

/-- JS `String.prototype.trim`: strip leading and trailing whitespace. -/
def jsTrim (s : String) : String :=
  ⟨((s.data.dropWhile Char.isWhitespace).reverse.dropWhile
      Char.isWhitespace).reverse⟩

/-- JS `String.prototype.startsWith`. -/
def jsStartsWith (s pat : String) : Bool :=
  pat.data.isPrefixOf s.data

/-- JS `String.prototype.endsWith`. -/
def jsEndsWith (s pat : String) : Bool :=
  pat.data.isSuffixOf s.data

/-- JS `String.prototype.slice(n)` for a non-negative start index. -/
def jsDrop (s : String) (n : Nat) : String :=
  ⟨s.data.drop n⟩

/-- Helper for `jsSplitLines`: accumulate the current line (reversed). -/
def splitLinesAux : List Char → List Char → List String
  | [], acc => [⟨acc.reverse⟩]
  | c :: cs, acc =>
    if c = '\n' then ⟨acc.reverse⟩ :: splitLinesAux cs []
    else splitLinesAux cs (c :: acc)

/-- JS `String.prototype.split("\n")`. -/
def jsSplitLines (s : String) : List String :=
  splitLinesAux s.data []

/-! ### Thread id validation (src/lib/utils/index.ts, isValidThreadId)

The source tests the candidate against
`/^[0-9a-f]{8}-[0-9a-f]{4}-[0-9a-f]{4}-[0-9a-f]{4}-[0-9a-f]{12}$/i`.
The anchored regex is rendered positionally: exactly 36 characters,
hyphens at offsets 8, 13, 18 and 23, and (because of the `i` flag)
a hex digit of either case everywhere else. -/

/-- Character class `[0-9a-f]` under the regex's case-insensitive flag. -/
def isHexDigitCI (c : Char) : Bool :=
  (('0' ≤ c && c ≤ '9') || ('a' ≤ c && c ≤ 'f') || ('A' ≤ c && c ≤ 'F'))

/-- Validate thread ID format (the `uuidRegex.test` call). -/
def isValidThreadId (threadId : String) : Bool :=
  let cs := threadId.toList
  cs.length = 36 &&
    (List.range 36).all (fun i =>
      let c := cs.getD i ' '
      if i = 8 || i = 13 || i = 18 || i = 23 then c = '-' else isHexDigitCI c)

/-! ### Streaming session: connect (useSSEConnection.ts)

`connect` first validates the thread id; on failure it stores an error
and moves to the `error` state without touching the network.  On success
it tears down any prior session, moves to `connecting`, and only then
issues the fetch.  `ConnectAttempt` records that synchronous prefix:
the state and error after the pre-network phase, and whether a network
request was issued at all. -/

structure ConnectAttempt where
  connectionState : ConnectionState
  error : Option String
  networkRequested : Bool
deriving DecidableEq, Repr

/-- Synchronous fragment of `connect(threadId)` up to the fetch call. -/
def connect (threadId : String) : ConnectAttempt :=
  if !isValidThreadId threadId then
    { connectionState := .error
      error := some "Invalid thread ID format"
      networkRequested := false }
  else
    { connectionState := .connecting
      error := none
      networkRequested := true }

/-! ### Streaming session: reading the stream (useSSEConnection.ts)

`handleMessage` parses one `data:` payload with `JSON.parse`; on success
it records the event as `lastEvent` and forwards it to the registered
`onEvent` callback (the subsequent `switch` has no observable effect);
on failure it stores the error `"Failed to parse SSE event data"`.
Note that the parse failure path touches only `error` — it neither
changes `connectionState` nor stops the read loop.

`readStream` accumulates raw chunks into a buffer, splits on `"\n"`,
keeps the trailing incomplete line buffered, and processes each complete
line: lines whose trimmed form starts with `"data: "` yield a payload;
an empty payload is skipped; the `"[DONE]"` sentinel sets the state to
`disconnected` and `break`s — out of the inner for-loop only, so the
surrounding while-loop keeps reading subsequent chunks; any other
payload goes to `handleMessage`.  Exhaustion of the byte stream
(`done`) sets `disconnected`. -/

/-- Observable state of one streaming session: connection state, stored
error, last parsed event, and the events forwarded to the `onEvent`
callback in order. -/
structure SessionState where
  connectionState : ConnectionState
  error : Option String
  lastEvent : Option EventData
  delivered : List EventData
deriving DecidableEq, Repr

/-- Session state right after `handleOpen` ran (connected, no error). -/
def openedSession : SessionState :=
  { connectionState := .connected, error := none
    lastEvent := none, delivered := [] }

/-- Parse and handle one SSE payload (`handleMessage`); `parse` stands
for `JSON.parse` composed with the envelope reading, i.e. it returns
`none` exactly when `JSON.parse` would throw on this payload. -/
def handleMessage (parse : String → Option EventData)
    (st : SessionState) (data : String) : SessionState :=
  match parse data with
  | some eventData =>
      { st with
        lastEvent := some eventData
        delivered := st.delivered ++ [eventData] }
  | none =>
      { st with error := some "Failed to parse SSE event data" }

/-- Process the complete lines extracted from one buffered chunk (the
inner `for (const line of lines)` loop of `readStream`).  The `[DONE]`
branch returns without visiting the remaining lines of this batch,
mirroring the `break`. -/
def processLines (parse : String → Option EventData)
    (st : SessionState) : List String → SessionState
  | [] => st
  | line :: rest =>
    let trimmedLine := jsTrim line
    if jsStartsWith trimmedLine "data: " then
      let data := jsDrop trimmedLine 6
      if jsTrim data ≠ "" then
        if data = "[DONE]" then
          { st with connectionState := .disconnected }
        else
          processLines parse (handleMessage parse st data) rest
      else
        processLines parse st rest
    else
      processLines parse st rest

/-- The read loop of `readStream` over the successive chunks decoded
from the byte stream; `buffer` retains the trailing incomplete line.
When the chunk list is exhausted the reader signals `done` and the
state becomes `disconnected`. -/
def readStream (parse : String → Option EventData)
    (st : SessionState) (buffer : String) : List String → SessionState
  | [] => { st with connectionState := .disconnected }
  | chunk :: chunks =>
    let buf := buffer ++ chunk
    let lines := jsSplitLines buf
    let newBuffer := lines.getLastD ""
    readStream parse (processLines parse st lines.dropLast) newBuffer chunks

/-! ### Conversation reducer (handleSSEEvent of the main component)

The reducer receives the parsed envelope and folds it into the current
message list.  Two event kinds have an effect on the list:

* `assistant_action_message_appended` with a non-empty (truthy)
  `message_chunk` either appends a fresh assistant message or extends
  the last one, decided by `shouldCreateNewMessage`;
* `code_block_query_plan_appended` with truthy `query_plan_chunk` and
  `code_block_id` attaches/extends a code block on the last message,
  provided that message is an assistant message, with a suffix guard
  against re-delivered chunks.

`fresh` stands for the `generateId()` value of this invocation and
`now` for `Date.now()`. -/

/-- Replace the entry for a key in a JS-object-like association list,
or append it when absent (JS property insertion order semantics). -/
def upsertBlock : List (String × CodeBlock) → String → CodeBlock →
    List (String × CodeBlock)
  | [], key, blk => [(key, blk)]
  | (k, b) :: rest, key, blk =>
    if k = key then (key, blk) :: rest else (k, b) :: upsertBlock rest key blk

/-- The decision `shouldCreateNewMessage`: no last message, last message
not an assistant message, or the last assistant message already carries
code blocks or a query plan. -/
def shouldCreateNewMessage : Option Message → Bool
  | none => true
  | some (.user ..) => true
  | some (.assistant _ _ _ queryPlan codeBlocks _) =>
    !codeBlocks.isEmpty || queryPlan.isSome

/-- The conversation reducer: one parsed SSE envelope applied to the
message list (the `setMessages` functional updates of `handleSSEEvent`). -/
def handleSSEEvent (fresh : String) (now : Nat) (eventData : EventData)
    (prevMessages : List Message) : List Message :=
  match eventData.event with
  | .assistantActionMessageAppended assistantActionId messageChunk =>
    if messageChunk = "" then prevMessages
    else
      let lastMessage := prevMessages.getLast?
      if shouldCreateNewMessage lastMessage then
        let msgId :=
          match assistantActionId with
          | some a => if a = "" then fresh else a
          | none => fresh
        prevMessages ++
          [.assistant msgId messageChunk (eventData.createdAt.getD now)
            none [] false]
      else
        match lastMessage with
        | some (.assistant i c t qp blocks st) =>
          prevMessages.dropLast ++
            [.assistant i (c ++ messageChunk) t qp blocks st]
        | _ => prevMessages
  | .codeBlockQueryPlanAppended codeBlockId queryPlanChunk =>
    if queryPlanChunk = "" || codeBlockId = "" then prevMessages
    else
      match prevMessages.getLast? with
      | some (.assistant i c t qp blocks st) =>
        let currentContent :=
          (((blocks.lookup codeBlockId).map CodeBlock.content).getD "")
        let updatedContent :=
          if jsEndsWith currentContent queryPlanChunk then currentContent
          else currentContent ++ queryPlanChunk
        prevMessages.dropLast ++
          [.assistant i c t qp
            (upsertBlock blocks codeBlockId
              ⟨codeBlockId, updatedContent, true⟩) st]
      | _ => prevMessages
  | _ => prevMessages

/-- True when the message list ends in an assistant message. -/
def lastIsAssistant (msgs : List Message) : Bool :=
  match msgs.getLast? with
  | some (.assistant ..) => true
  | _ => false

/-- Content of the code block stored under a given id on the last
message of the list, when that message is an assistant message. -/
def lastBlockContent (msgs : List Message) (codeBlockId : String) :
    Option String :=
  match msgs.getLast? with
  | some (.assistant _ _ _ _ blocks _) =>
    (blocks.lookup codeBlockId).map CodeBlock.content
  | _ => none

/-! ### Thread rehydration (convertThreadToMessages, utils/index.ts)

The function takes the internal-format `Thread`, sorts its interactions
by `created_at` ascending with `Array.prototype.sort` (which is stable),
and flattens each interaction to its user message followed by its
assistant messages in array order.  JS timestamps are `Nat`s; the
`id || generateId()` fallback uses the `fresh` parameter when an id is
the empty (falsy) string; optional `streaming` is `Option Bool` and
`streaming || false` is `Option.getD false`.  (The alternative
`assistant_actions` API format branch is not exercised by interactions
that carry an `assistant_messages` array and is not modelled.) -/

structure InteractionUserMessage where
  id : String
  content : String
  timestamp : Nat
deriving DecidableEq, Repr

structure InteractionAssistantMessage where
  id : String
  content : String
  timestamp : Nat
  streaming : Option Bool
deriving DecidableEq, Repr

structure Interaction where
  id : String
  user_message : InteractionUserMessage
  assistant_messages : List InteractionAssistantMessage
  created_at : Nat
deriving DecidableEq, Repr

structure Thread where
  id : String
  interactions : List Interaction
deriving DecidableEq, Repr

/-- Stable insertion into a list already sorted by `created_at`
ascending: the element goes before the first strictly later entry and
after entries sharing its key, matching the stable JS sort with the
comparator `a.created_at - b.created_at`. -/
def insertByCreatedAt (x : Interaction) : List Interaction → List Interaction
  | [] => [x]
  | y :: ys =>
    if x.created_at ≤ y.created_at then x :: y :: ys
    else y :: insertByCreatedAt x ys

/-- Stable sort of the interactions by `created_at` ascending. -/
def sortInteractions : List Interaction → List Interaction
  | [] => []
  | x :: xs => insertByCreatedAt x (sortInteractions xs)

/-- Flatten one interaction: user message first, then the assistant
messages in array order. -/
def interactionToMessages (fresh : String) (i : Interaction) : List Message :=
  .user (if i.user_message.id = "" then fresh else i.user_message.id)
      i.user_message.content i.user_message.timestamp ::
    i.assistant_messages.map (fun am =>
      .assistant (if am.id = "" then fresh else am.id) am.content am.timestamp
        none [] (am.streaming.getD false))

/-- Convert Thread data to the flat Message array. -/
def convertThreadToMessages (fresh : String) (thread : Thread) : List Message :=
  (sortInteractions thread.interactions).foldl
    (fun messages i => messages ++ interactionToMessages fresh i) []

/-! ### Thread persistence (useThreadPersistence)

The hook state is the in-memory `currentThreadId` plus the
`localStorage` slot under the derived storage key; both are modelled
explicitly (storage is assumed available — `isStorageAvailable`
returning false only skips the storage half, which the invariant
theorems do not rely on). -/

structure PersistState where
  currentThreadId : Option String
  storedValue : Option String
deriving DecidableEq, Repr

/-- Set current thread ID and persist to localStorage: the in-memory id
is always updated; then `if (threadId)` is a JS truthiness check, so a
non-null AND non-empty id is written to storage only when it passes
`isValidThreadId` (otherwise the write is skipped), while a null id —
or the falsy empty string — takes the else branch and removes the
stored value. -/
def setCurrentThreadId (s : PersistState) (threadId : Option String) :
    PersistState :=
  let s := { s with currentThreadId := threadId }
  match threadId with
  | some id =>
    if id ≠ "" then
      if !isValidThreadId id then s
      else { s with storedValue := some id }
    else { s with storedValue := none }
  | none => { s with storedValue := none }

/-- The load-on-mount effect: adopt the stored thread id only when it is
present and passes `isValidThreadId`. -/
def loadStoredThreadId (s : PersistState) : PersistState :=
  match s.storedValue with
  | some storedThreadId =>
    if isValidThreadId storedThreadId then
      { s with currentThreadId := some storedThreadId }
    else s
  | none => s

/-- Durable-store invariant: whatever the storage slot holds is a valid
thread id. -/
def storeValid (s : PersistState) : Prop :=
  ∀ v, s.storedValue = some v → isValidThreadId v = true

/-! ### Cancellation (handleCancelMessage / cancelMessage)

Both cancel entry points are modelled as the trace of state-affecting
steps they perform, in program order.  `awaitCancelThread` marks the
suspension point of the awaited `api.cancelThread` call, so "X happens
synchronously before the server cancel" is "X precedes
`awaitCancelThread` in the trace".  The `cancelFailed` flag is the
outcome of that awaited call.  `console.warn` logging is not a state
change and is not recorded; the 3-second `setTimeout` of the component
handler is recorded as the registration step `scheduleClearTimeout`
(its later firing runs outside this call). -/

inductive CancelStep where
  | setIsCancelling (b : Bool)
  | setHasRecentlyCancelled (b : Bool)
  | setIsLoading (b : Bool)
  | setError (e : Option String)
  | apiClearError
  | sseClearError
  | sseDisconnect
  | awaitCancelThread
  | notifyOnError
  | scheduleClearTimeout
deriving DecidableEq, Repr

/-- Trace of the component's `handleCancelMessage` (PromptQLChat
component): local cleanup first, then the best-effort server cancel
(only when a thread id is known), whose failure is swallowed. -/
def handleCancelMessage (threadId : Option String) (cancelFailed : Bool) :
    List CancelStep :=
  [.setIsCancelling true, .setHasRecentlyCancelled true,
   .setIsLoading false, .setError none, .apiClearError, .sseClearError,
   .sseDisconnect] ++
  (match threadId, cancelFailed with
   | some _, _ => [.awaitCancelThread]
   | none, _ => []) ++
  [.scheduleClearTimeout]

/-- Trace of the headless hook's `cancelMessage` (usePromptQLChat): a
no-op without a thread id; otherwise the server cancel is awaited
first, and only a successful cancel disconnects the stream and clears
`isLoading`, while a failed cancel stores the error and notifies
`onError`. -/
def cancelMessage (threadId : Option String) (cancelFailed : Bool) :
    List CancelStep :=
  match threadId with
  | none => []
  | some _ =>
    if cancelFailed then
      [.awaitCancelThread, .setError (some "cancel failed"), .notifyOnError]
    else
      [.awaitCancelThread, .sseDisconnect, .setIsLoading false]

/-- The property claimed of cancellation: before the awaited server
cancel (i.e. within the longest `awaitCancelThread`-free prefix of the
trace) the call has already cleared `isLoading`, cleared the error
state, and disconnected the stream. -/
def localCleanupBeforeAwait (trace : List CancelStep) : Bool :=
  let pre := trace.takeWhile (fun s => s != .awaitCancelThread)
  pre.contains (.setIsLoading false) && pre.contains (.setError none) &&
    pre.contains .sseClearError && pre.contains .sseDisconnect

/-! ### Sending (handleSendMessage of the main component)

Modelled as the trace of steps plus the resulting observable state.
`genId`/`now` stand for `generateId()`/`Date.now()`; `net` is the
outcome of the awaited start-thread or continue-thread call.  The
optimistic user message is appended inside the `try` block before that
await; the catch path sets the error and drops `isLoading` but never
touches the message list. -/

inductive NetResult where
  | ok (threadId : String)
  | failed (msg : String)
deriving DecidableEq, Repr

inductive SendStep where
  | setLoading (b : Bool)
  | setSendError (e : Option String)
  | clearRecentlyCancelled
  | appendUserMessage
  | awaitStartThread
  | awaitContinueThread
  | persistThreadId (id : String)
  | notifyThreadStart (id : String)
  | notifySendError
  | sseConnect (id : String)
deriving DecidableEq, Repr

structure SendResult where
  trace : List SendStep
  messages : List Message
  isLoading : Bool
  error : Option String
deriving DecidableEq, Repr

/-- The component's `handleSendMessage`: guard, synchronous local
updates, optimistic append, then the awaited start/continue call and
its success or failure continuation. -/
def handleSendMessage (genId : String) (now : Nat)
    (messages : List Message) (isLoading : Bool) (error0 : Option String)
    (currentThreadId : Option String) (message : String) (net : NetResult) :
    SendResult :=
  if jsTrim message = "" || isLoading then
    { trace := [], messages := messages, isLoading := isLoading
      error := error0 }
  else
    let userMessage : Message := .user genId (jsTrim message) now
    let pre : List SendStep :=
      [.setLoading true, .setSendError none, .clearRecentlyCancelled,
       .appendUserMessage]
    let messages' := messages ++ [userMessage]
    match currentThreadId, net with
    | none, .ok tid =>
      { trace := pre ++ [.awaitStartThread, .persistThreadId tid,
          .notifyThreadStart tid, .sseConnect tid]
        messages := messages', isLoading := true, error := none }
    | none, .failed e =>
      { trace := pre ++ [.awaitStartThread, .setSendError (some e),
          .notifySendError, .setLoading false]
        messages := messages', isLoading := false, error := some e }
    | some tid, .ok _ =>
      { trace := pre ++ [.awaitContinueThread, .sseConnect tid]
        messages := messages', isLoading := true, error := none }
    | some _, .failed e =>
      { trace := pre ++ [.awaitContinueThread, .setSendError (some e),
          .notifySendError, .setLoading false]
        messages := messages', isLoading := false, error := some e }

/-- True for the two steps marking the suspension on the start/continue
network call. -/
def isAwaitStep : SendStep → Bool
  | .awaitStartThread => true
  | .awaitContinueThread => true
  | _ => false

/-- A sample `JSON.parse` stand-in used for concrete evaluations: it
recognizes exactly the payload string `"EVT"` as an
`interaction_update` envelope. -/
def evtParse : String → Option EventData := fun s =>
  if s = "EVT" then some ⟨none, .interactionUpdate⟩ else none

/-! ## Supporting lemmas -/

/-- Any string accepted by `isValidThreadId` has exactly 36 characters. -/
theorem isValidThreadId_length (s : String) (h : isValidThreadId s = true) :
    s.toList.length = 36 := by
  unfold isValidThreadId at h
  simp only [Bool.and_eq_true, decide_eq_true_eq] at h
  exact h.1

/-- Character data of a string concatenation. -/
theorem str_data_append (a b : String) : (a ++ b).data = a.data ++ b.data := by
  cases a; cases b; rfl

/-- Left identity of string concatenation. -/
theorem str_empty_append (q : String) : "" ++ q = q := by
  cases q; rfl

/-- A concatenation always ends with its right operand. -/
theorem jsEndsWith_append (a b : String) : jsEndsWith (a ++ b) b = true := by
  unfold jsEndsWith
  rw [List.isSuffixOf_iff_suffix]
  cases a; cases b
  exact List.suffix_append _ _

/-- The empty string does not end with a non-empty string. -/
theorem jsEndsWith_empty_left (q : String) (hq : q ≠ "") :
    jsEndsWith "" q = false := by
  unfold jsEndsWith
  cases q with
  | mk data =>
    cases data with
    | nil => exact absurd rfl hq
    | cons c cs => simp [List.isSuffixOf]

/-- Looking up the key just written by `upsertBlock`. -/
theorem lookup_upsertBlock (bs : List (String × CodeBlock)) (k : String)
    (v : CodeBlock) : (upsertBlock bs k v).lookup k = some v := by
  induction bs with
  | nil => simp [upsertBlock, List.lookup]
  | cons hd tl ih =>
    obtain ⟨k', v'⟩ := hd
    by_cases hk : k' = k
    · simp [upsertBlock, hk, List.lookup]
    · have hkk : (k == k') = false := by simp [Ne.symm hk]
      simp [upsertBlock, hk, List.lookup, hkk, ih]

/-- Writing the same entry twice is the same as writing it once. -/
theorem upsertBlock_upsertBlock (bs : List (String × CodeBlock)) (k : String)
    (v : CodeBlock) : upsertBlock (upsertBlock bs k v) k v = upsertBlock bs k v := by
  induction bs with
  | nil => simp [upsertBlock]
  | cons hd tl ih =>
    obtain ⟨k', v'⟩ := hd
    by_cases hk : k' = k
    · simp [upsertBlock, hk]
    · simp [upsertBlock, hk, ih]

/-- When the list does not end in an assistant message the reducer's
`shouldCreateNewMessage` test is positive. -/
theorem shouldCreateNewMessage_of_not_assistant (msgs : List Message)
    (h : lastIsAssistant msgs = false) :
    shouldCreateNewMessage msgs.getLast? = true := by
  unfold lastIsAssistant at h
  unfold shouldCreateNewMessage
  match hm : msgs.getLast? with
  | none => rfl
  | some (.user ..) => rfl
  | some (.assistant ..) => rw [hm] at h; simp at h

/-! ## Claim theorems -/

/-- C1 (amended).  The component's cancel handler `handleCancelMessage`
clears `isLoading`, clears the error state (component error, API error
and streaming-session error) and disconnects the stream strictly before
the awaited server-side cancel call, and its step trace does not depend
on whether that call later succeeds or fails.  (The headless hook's
`cancelMessage` does not have this property, see the counterexample.) -/
theorem c1_component_cancel_cleans_up_before_server_cancel
    (tid : String) (cancelFailed : Bool) :
    localCleanupBeforeAwait (handleCancelMessage (some tid) cancelFailed) = true ∧
    handleCancelMessage (some tid) cancelFailed =
      handleCancelMessage (some tid) (!cancelFailed) := by
  cases cancelFailed <;> exact ⟨rfl, rfl⟩

/-- C1 counterexample.  Invoked with a known thread id, the headless
hook's `cancelMessage` awaits the server cancel before any local
cleanup: no `isLoading := false`, no error clearing and no disconnect
precedes the await, on the success path as well as on the failure
path. -/
theorem c1_hook_cancel_is_not_local_first :
    localCleanupBeforeAwait
      (cancelMessage (some "123e4567-e89b-12d3-a456-426614174000") false) = false ∧
    localCleanupBeforeAwait
      (cancelMessage (some "123e4567-e89b-12d3-a456-426614174000") true) = false := by
  decide

/-- C2 (amended).  Every thread id string rejected by the validator —
which accepts exactly the 36-character 8-4-4-4-12 hyphenated pattern of
hex digits of either case, the regex being case-insensitive — makes
`connect` store an error and enter the `error` state synchronously,
with no network request issued. -/
theorem c2_connect_rejects_invalid_thread_ids (s : String)
    (h : isValidThreadId s = false) :
    connect s = { connectionState := .error
                  error := some "Invalid thread ID format"
                  networkRequested := false } := by
  simp [connect, h]

/-- Witness for C2: a wrong-length id (35 characters) and a same-length
id with the first hyphen replaced by a hex digit are both rejected
without a network request. -/
theorem c2_connect_rejects_invalid_thread_ids_witness :
    (isValidThreadId "123e4567-e89b-12d3-a456-42661417400" = false ∧
      connect "123e4567-e89b-12d3-a456-42661417400" =
        { connectionState := .error
          error := some "Invalid thread ID format"
          networkRequested := false }) ∧
    (isValidThreadId "123e45670e89b-12d3-a456-426614174000" = false ∧
      connect "123e45670e89b-12d3-a456-426614174000" =
        { connectionState := .error
          error := some "Invalid thread ID format"
          networkRequested := false }) :=
  ⟨⟨by decide,
      c2_connect_rejects_invalid_thread_ids
        "123e4567-e89b-12d3-a456-42661417400" (by decide)⟩,
    ⟨by decide,
      c2_connect_rejects_invalid_thread_ids
        "123e45670e89b-12d3-a456-426614174000" (by decide)⟩⟩

/-- C2 counterexample.  An id in the correct 8-4-4-4-12 hyphenated
shape but containing uppercase hex letters is NOT rejected: the
source's regex carries the `i` flag, so `connect` proceeds to issue the
network request instead of transitioning to the error state. -/
theorem c2_uppercase_hex_id_not_rejected :
    (connect "ABCDEF01-2345-6789-ABCD-EF0123456789").networkRequested = true ∧
    (connect "ABCDEF01-2345-6789-ABCD-EF0123456789").connectionState ≠
      ConnectionState.error := by
  decide

/-- C10 (amended).  The thread persistence store never writes an
invalid id to durable storage: with an invalid non-null, NON-EMPTY id,
`setCurrentThreadId` updates only the in-memory id and leaves the
storage slot untouched (the empty string, being falsy in JS, instead
takes the null branch and removes the stored value — see the
counterexample); every reachable write preserves the store-validity
invariant; and the load effect ignores an invalid stored value,
leaving no active thread. -/
theorem c10_persistence_writes_and_adopts_only_valid_ids
    (s : PersistState) (id v : String)
    (hne : id ≠ "")
    (hid : isValidThreadId id = false)
    (hv : isValidThreadId v = false) :
    ((setCurrentThreadId s (some id)).currentThreadId = some id ∧
      (setCurrentThreadId s (some id)).storedValue = s.storedValue) ∧
    (∀ tid, storeValid s → storeValid (setCurrentThreadId s tid)) ∧
    (loadStoredThreadId ⟨none, some v⟩).currentThreadId = none := by
  refine ⟨⟨?_, ?_⟩, ?_, ?_⟩
  · simp [setCurrentThreadId, hne, hid]
  · simp [setCurrentThreadId, hne, hid]
  · intro tid hs
    cases tid with
    | none =>
      intro w hw
      simp [setCurrentThreadId] at hw
    | some id' =>
      by_cases he : id' = ""
      · intro w hw
        simp [setCurrentThreadId, he] at hw
      · by_cases h' : isValidThreadId id' = true
        · intro w hw
          simp [setCurrentThreadId, he, h'] at hw
          rw [← hw]
          exact h'
        · intro w hw
          simp [setCurrentThreadId, he, h'] at hw
          exact hs w hw
  · simp [loadStoredThreadId, hv]

/-- Witness for C10 at the invalid non-empty id "not-a-uuid" over a
store holding a valid id. -/
theorem c10_persistence_writes_and_adopts_only_valid_ids_witness :
    ((setCurrentThreadId
        ⟨none, some "123e4567-e89b-12d3-a456-426614174000"⟩
        (some "not-a-uuid")).currentThreadId = some "not-a-uuid" ∧
      (setCurrentThreadId
        ⟨none, some "123e4567-e89b-12d3-a456-426614174000"⟩
        (some "not-a-uuid")).storedValue =
          (⟨none, some "123e4567-e89b-12d3-a456-426614174000"⟩ :
            PersistState).storedValue) ∧
    (∀ tid, storeValid ⟨none, some "123e4567-e89b-12d3-a456-426614174000"⟩ →
      storeValid (setCurrentThreadId
        ⟨none, some "123e4567-e89b-12d3-a456-426614174000"⟩ tid)) ∧
    (loadStoredThreadId ⟨none, some "not-a-uuid"⟩).currentThreadId = none :=
  c10_persistence_writes_and_adopts_only_valid_ids
    ⟨none, some "123e4567-e89b-12d3-a456-426614174000"⟩
    "not-a-uuid" "not-a-uuid" (by decide) (by decide) (by decide)

/-- C10 counterexample.  The empty string is a non-null id failing
validation, yet `setCurrentThreadId` does NOT skip the storage
mutation for it: `if (threadId)` is a truthiness check, so `""` takes
the else branch and the stored value is removed. -/
theorem c10_empty_string_id_clears_stored_value :
    isValidThreadId "" = false ∧
    (setCurrentThreadId
        ⟨none, some "123e4567-e89b-12d3-a456-426614174000"⟩
        (some "")).currentThreadId = some "" ∧
    (setCurrentThreadId
        ⟨none, some "123e4567-e89b-12d3-a456-426614174000"⟩
        (some "")).storedValue = none ∧
    (setCurrentThreadId
        ⟨none, some "123e4567-e89b-12d3-a456-426614174000"⟩
        (some "")).storedValue ≠
      (⟨none, some "123e4567-e89b-12d3-a456-426614174000"⟩ :
        PersistState).storedValue := by
  decide

/-- C3 (amended).  A malformed (non-parseable) data-line payload on an
open stream is dropped and processing continues with the remaining
lines: the only state change is that the session's error is set to the
parse-failure error "Failed to parse SSE event data" — in particular
the connection state is untouched and subsequent events are still
dispatched — rather than the error staying null as claimed. -/
theorem c3_malformed_payload_dropped_stream_continues
    (parse : String → Option EventData) (st : SessionState)
    (line : String) (rest : List String)
    (hdata : jsStartsWith (jsTrim line) "data: " = true)
    (hne : jsTrim (jsDrop (jsTrim line) 6) ≠ "")
    (hnd : jsDrop (jsTrim line) 6 ≠ "[DONE]")
    (hparse : parse (jsDrop (jsTrim line) 6) = none) :
    processLines parse st (line :: rest) =
      processLines parse
        { st with error := some "Failed to parse SSE event data" } rest := by
  conv_lhs => rw [processLines]
  simp only [hdata, if_true, hne, hnd, ite_true, ite_false, if_pos, if_neg,
    handleMessage, hparse]
  simp [hne, hnd]

/-- Witness for C3: the payload "BAD" is unparseable, the stream state
moves on to the next line with only the error field set. -/
theorem c3_malformed_payload_dropped_stream_continues_witness :
    jsStartsWith (jsTrim "data: BAD") "data: " = true ∧
    jsTrim (jsDrop (jsTrim "data: BAD") 6) ≠ "" ∧
    jsDrop (jsTrim "data: BAD") 6 ≠ "[DONE]" ∧
    evtParse (jsDrop (jsTrim "data: BAD") 6) = none ∧
    processLines evtParse openedSession ("data: BAD" :: ["data: EVT"]) =
      processLines evtParse
        { openedSession with error := some "Failed to parse SSE event data" }
        ["data: EVT"] :=
  ⟨by decide, by decide, by decide, by decide,
    c3_malformed_payload_dropped_stream_continues evtParse openedSession
      "data: BAD" ["data: EVT"] (by decide) (by decide) (by decide) (by decide)⟩

/-- C3 counterexample.  After a malformed payload on an open stream the
session's stored error is NOT null (it is the parse-failure error),
even though the connection state stays `connected` and the following
well-formed event is still delivered to the callback. -/
theorem c3_malformed_payload_sets_session_error :
    (processLines evtParse openedSession ["data: BAD", "data: EVT"]).error ≠
      none ∧
    (processLines evtParse openedSession ["data: BAD", "data: EVT"]
      ).connectionState = ConnectionState.connected ∧
    (processLines evtParse openedSession ["data: BAD", "data: EVT"]).delivered =
      [⟨none, SSEEvent.interactionUpdate⟩] := by
  decide

/-- C7 (code bug).  On a `[DONE]` data line the reader sets the state
to `disconnected` with no error — but the `break` leaves only the inner
per-chunk line loop, so the enclosing read loop keeps running and
events decoded from chunks after the `[DONE]` line are still forwarded
to the registered event callback: here the `"EVT"` payload of the
second chunk is delivered even though `[DONE]` arrived first. -/
theorem c7_events_after_done_still_forwarded :
    (readStream evtParse openedSession ""
        ["data: [DONE]\n", "data: EVT\n"]).delivered =
      [⟨none, SSEEvent.interactionUpdate⟩] ∧
    (processLines evtParse openedSession ["data: [DONE]"]).connectionState =
      ConnectionState.disconnected ∧
    (processLines evtParse openedSession ["data: [DONE]"]).error = none := by
  decide

/-- Evaluation of the structured-fragment branch of the reducer when the
last message is an assistant message and the payload guards pass. -/
theorem codeBlock_step (f : String) (n : Nat) (ca : Option Nat)
    (cbId x : String) (msgs : List Message)
    (i c : String) (t : Nat) (qp : Option QueryPlan)
    (blocks : List (String × CodeBlock)) (st : Bool)
    (hx : x ≠ "") (hcb : cbId ≠ "")
    (hm : msgs.getLast? = some (.assistant i c t qp blocks st)) :
    handleSSEEvent f n ⟨ca, .codeBlockQueryPlanAppended cbId x⟩ msgs =
      msgs.dropLast ++
        [.assistant i c t qp
          (upsertBlock blocks cbId
            ⟨cbId,
             if jsEndsWith (((blocks.lookup cbId).map CodeBlock.content).getD "") x
             then ((blocks.lookup cbId).map CodeBlock.content).getD ""
             else ((blocks.lookup cbId).map CodeBlock.content).getD "" ++ x,
             true⟩) st] := by
  unfold handleSSEEvent
  simp [hx, hcb, hm]

/-- Applying the same structured-fragment event twice in a row equals
applying it once, whatever the starting message list: the suffix guard
makes the second delivery a no-op on the block content, and the re-set
`streaming` flag and re-written entry take the same values. -/
theorem handleSSEEvent_codeBlock_idem (f1 f2 : String) (n1 n2 : Nat)
    (ca1 ca2 : Option Nat) (cbId x : String) (msgs : List Message) :
    handleSSEEvent f2 n2 ⟨ca2, .codeBlockQueryPlanAppended cbId x⟩
      (handleSSEEvent f1 n1 ⟨ca1, .codeBlockQueryPlanAppended cbId x⟩ msgs) =
    handleSSEEvent f1 n1 ⟨ca1, .codeBlockQueryPlanAppended cbId x⟩ msgs := by
  by_cases hguard : x = "" ∨ cbId = ""
  · unfold handleSSEEvent
    rcases hguard with hx | hcb
    · simp [hx]
    · simp [hcb]
  · push_neg at hguard
    obtain ⟨hx, hcb⟩ := hguard
    match hm : msgs.getLast? with
    | none =>
      unfold handleSSEEvent
      simp [hx, hcb, hm]
    | some (.user i c t) =>
      unfold handleSSEEvent
      simp [hx, hcb, hm]
    | some (.assistant i c t qp blocks st) =>
      rw [codeBlock_step f1 n1 ca1 cbId x msgs i c t qp blocks st hx hcb hm]
      by_cases hend :
          jsEndsWith (((blocks.lookup cbId).map CodeBlock.content).getD "") x = true
      · rw [if_pos hend]
        rw [codeBlock_step f2 n2 ca2 cbId x _ i c t qp _ st hx hcb
          (List.getLast?_concat _)]
        rw [List.dropLast_concat]
        rw [lookup_upsertBlock]
        simp only [Option.map_some', Option.getD_some]
        rw [if_pos hend]
        rw [upsertBlock_upsertBlock]
      · rw [if_neg hend]
        rw [codeBlock_step f2 n2 ca2 cbId x _ i c t qp _ st hx hcb
          (List.getLast?_concat _)]
        rw [List.dropLast_concat]
        rw [lookup_upsertBlock]
        simp only [Option.map_some', Option.getD_some]
        rw [if_pos (jsEndsWith_append _ x)]
        rw [upsertBlock_upsertBlock]

/-- Conversion of a two-interaction thread: flattening after the stable
sort on `created_at`. -/
theorem convert_pair (fresh tid : String) (x y : Interaction) :
    convertThreadToMessages fresh ⟨tid, [x, y]⟩ =
      if x.created_at ≤ y.created_at
      then interactionToMessages fresh x ++ interactionToMessages fresh y
      else interactionToMessages fresh y ++ interactionToMessages fresh x := by
  by_cases hle : x.created_at ≤ y.created_at
  · simp [convertThreadToMessages, sortInteractions, insertByCreatedAt, hle]
  · simp [convertThreadToMessages, sortInteractions, insertByCreatedAt, hle]

/-- C4 (amended).  Starting from any message list whose last element is
not an assistant message (or from the empty list), the text-chunk
sequence ["Hello", " world"] yields exactly one new assistant message
with content "Hello world": the first chunk starts the message, the
second extends it in place.  (If the last element is a plain assistant
message the first chunk merges into it instead — see the
counterexample.) -/
theorem c4_text_chunks_append_single_new_assistant_message
    (msgs : List Message) (f1 f2 : String) (n1 n2 : Nat)
    (h : lastIsAssistant msgs = false) :
    handleSSEEvent f2 n2 ⟨none, .assistantActionMessageAppended none " world"⟩
      (handleSSEEvent f1 n1 ⟨none, .assistantActionMessageAppended none "Hello"⟩
        msgs) =
      msgs ++ [.assistant f1 "Hello world" n1 none [] false] := by
  have h1 := shouldCreateNewMessage_of_not_assistant msgs h
  have e1 : handleSSEEvent f1 n1
      ⟨none, .assistantActionMessageAppended none "Hello"⟩ msgs =
      msgs ++ [.assistant f1 "Hello" n1 none [] false] := by
    unfold handleSSEEvent
    simp [h1]
  rw [e1]
  unfold handleSSEEvent
  simp [shouldCreateNewMessage, List.getLast?_concat, List.dropLast_concat]

/-- Witness for C4 at the empty starting list. -/
theorem c4_text_chunks_append_single_new_assistant_message_witness :
    lastIsAssistant [] = false ∧
    handleSSEEvent "f2" 2 ⟨none, .assistantActionMessageAppended none " world"⟩
      (handleSSEEvent "f1" 1 ⟨none, .assistantActionMessageAppended none "Hello"⟩
        ([] : List Message)) =
      [] ++ [.assistant "f1" "Hello world" 1 none [] false] :=
  ⟨by decide,
    c4_text_chunks_append_single_new_assistant_message [] "f1" "f2" 1 2
      (by decide)⟩

/-- C4 counterexample.  When the last message is a plain assistant
message (no code blocks, no query plan), the chunk sequence
["Hello", " world"] does NOT create a new assistant message: both
chunks merge into the existing message, whose content becomes
"HiHello world", and the list keeps length 1 instead of gaining a
message with content "Hello world". -/
theorem c4_chunks_merge_into_trailing_plain_assistant_message :
    handleSSEEvent "f2" 2 ⟨none, .assistantActionMessageAppended none " world"⟩
      (handleSSEEvent "f1" 1 ⟨none, .assistantActionMessageAppended none "Hello"⟩
        [.assistant "a0" "Hi" 0 none [] false]) =
      [.assistant "a0" "HiHello world" 0 none [] false] ∧
    (handleSSEEvent "f2" 2 ⟨none, .assistantActionMessageAppended none " world"⟩
      (handleSSEEvent "f1" 1 ⟨none, .assistantActionMessageAppended none "Hello"⟩
        [.assistant "a0" "Hi" 0 none [] false])).length = 1 := by
  decide

/-- C5.  A text chunk that starts an assistant message, followed by a
structured fragment (attaching a code block to it), followed by another
text chunk, yields exactly two assistant messages: the third event
starts a new message because the first one now carries a non-empty
code-blocks map. -/
theorem c5_text_fragment_text_yields_two_assistant_messages
    (msgs : List Message) (f1 f2 f3 : String) (n1 n2 n3 : Nat)
    (c1 cbId q c3 : String)
    (h : shouldCreateNewMessage msgs.getLast? = true)
    (hc1 : c1 ≠ "") (hcb : cbId ≠ "") (hq : q ≠ "") (hc3 : c3 ≠ "") :
    handleSSEEvent f3 n3 ⟨none, .assistantActionMessageAppended none c3⟩
      (handleSSEEvent f2 n2 ⟨none, .codeBlockQueryPlanAppended cbId q⟩
        (handleSSEEvent f1 n1 ⟨none, .assistantActionMessageAppended none c1⟩
          msgs)) =
      msgs ++ [.assistant f1 c1 n1 none [(cbId, ⟨cbId, q, true⟩)] false,
               .assistant f3 c3 n3 none [] false] := by
  have e1 : handleSSEEvent f1 n1
      ⟨none, .assistantActionMessageAppended none c1⟩ msgs =
      msgs ++ [.assistant f1 c1 n1 none [] false] := by
    unfold handleSSEEvent
    simp [h, hc1]
  rw [e1]
  rw [codeBlock_step f2 n2 none cbId q _ f1 c1 n1 none [] false hq hcb
    (List.getLast?_concat _)]
  rw [List.dropLast_concat]
  simp only [List.lookup, Option.map_none', Option.getD_none]
  rw [jsEndsWith_empty_left q hq]
  simp only [Bool.false_eq_true, if_false, str_empty_append, upsertBlock]
  unfold handleSSEEvent
  simp [shouldCreateNewMessage, List.getLast?_concat, List.append_assoc, hc3]

/-- Witness for C5 from the empty list, with chunks "Hello",
"SELECT" (code block "cb") and " more". -/
theorem c5_text_fragment_text_yields_two_assistant_messages_witness :
    shouldCreateNewMessage ([] : List Message).getLast? = true ∧
    "Hello" ≠ "" ∧ "cb" ≠ "" ∧ "SELECT" ≠ "" ∧ " more" ≠ "" ∧
    handleSSEEvent "f3" 3 ⟨none, .assistantActionMessageAppended none " more"⟩
      (handleSSEEvent "f2" 2 ⟨none, .codeBlockQueryPlanAppended "cb" "SELECT"⟩
        (handleSSEEvent "f1" 1
          ⟨none, .assistantActionMessageAppended none "Hello"⟩
          ([] : List Message))) =
      [] ++ [.assistant "f1" "Hello" 1 none [("cb", ⟨"cb", "SELECT", true⟩)]
               false,
             .assistant "f3" " more" 3 none [] false] :=
  ⟨by decide, by decide, by decide, by decide, by decide,
    c5_text_fragment_text_yields_two_assistant_messages [] "f1" "f2" "f3"
      1 2 3 "Hello" "cb" "SELECT" " more" (by decide) (by decide) (by decide)
      (by decide) (by decide)⟩

/-- C6.  A structured-fragment event whose chunk X is already the
suffix of the addressed code block's content leaves that content
unchanged (the append is skipped), and re-delivering any
structured-fragment event twice in a row equals delivering it once. -/
theorem c6_duplicate_code_block_chunk_not_reappended
    (f1 f2 : String) (n1 n2 : Nat) (ca1 ca2 : Option Nat)
    (cbId x : String) (msgs : List Message)
    (i c : String) (t : Nat) (qp : Option QueryPlan)
    (blocks : List (String × CodeBlock)) (st : Bool) (cb : CodeBlock)
    (hlast : msgs.getLast? = some (.assistant i c t qp blocks st))
    (hblk : blocks.lookup cbId = some cb)
    (hend : jsEndsWith cb.content x = true) :
    lastBlockContent
      (handleSSEEvent f1 n1 ⟨ca1, .codeBlockQueryPlanAppended cbId x⟩ msgs)
      cbId = lastBlockContent msgs cbId ∧
    handleSSEEvent f2 n2 ⟨ca2, .codeBlockQueryPlanAppended cbId x⟩
      (handleSSEEvent f1 n1 ⟨ca1, .codeBlockQueryPlanAppended cbId x⟩ msgs) =
    handleSSEEvent f1 n1 ⟨ca1, .codeBlockQueryPlanAppended cbId x⟩ msgs := by
  constructor
  · have hbase : lastBlockContent msgs cbId = some cb.content := by
      unfold lastBlockContent
      rw [hlast]
      simp [hblk]
    rw [hbase]
    by_cases hx : x = ""
    · have e0 : handleSSEEvent f1 n1
          ⟨ca1, .codeBlockQueryPlanAppended cbId x⟩ msgs = msgs := by
        unfold handleSSEEvent
        simp [hx]
      rw [e0]
      exact hbase
    by_cases hcb2 : cbId = ""
    · have e0 : handleSSEEvent f1 n1
          ⟨ca1, .codeBlockQueryPlanAppended cbId x⟩ msgs = msgs := by
        unfold handleSSEEvent
        simp [hcb2]
      rw [e0]
      exact hbase
    · rw [codeBlock_step f1 n1 ca1 cbId x msgs i c t qp blocks st hx hcb2 hlast]
      unfold lastBlockContent
      rw [List.getLast?_concat]
      simp only [lookup_upsertBlock, hblk, Option.map_some', Option.getD_some]
      rw [if_pos hend]
  · exact handleSSEEvent_codeBlock_idem f1 f2 n1 n2 ca1 ca2 cbId x msgs

/-- Witness for C6: the block "cb" already holds "abcX" and the chunk
"X" arrives again. -/
theorem c6_duplicate_code_block_chunk_not_reappended_witness :
    ([.assistant "a" "c" 0 none [("cb", ⟨"cb", "abcX", false⟩)] false] :
        List Message).getLast? =
      some (.assistant "a" "c" 0 none [("cb", ⟨"cb", "abcX", false⟩)] false) ∧
    ([("cb", (⟨"cb", "abcX", false⟩ : CodeBlock))].lookup "cb" =
      some (⟨"cb", "abcX", false⟩ : CodeBlock)) ∧
    jsEndsWith (CodeBlock.content ⟨"cb", "abcX", false⟩) "X" = true ∧
    (lastBlockContent
      (handleSSEEvent "f1" 1 ⟨none, .codeBlockQueryPlanAppended "cb" "X"⟩
        [.assistant "a" "c" 0 none [("cb", ⟨"cb", "abcX", false⟩)] false])
      "cb" =
      lastBlockContent
        [.assistant "a" "c" 0 none [("cb", ⟨"cb", "abcX", false⟩)] false]
        "cb" ∧
    handleSSEEvent "f2" 2 ⟨none, .codeBlockQueryPlanAppended "cb" "X"⟩
      (handleSSEEvent "f1" 1 ⟨none, .codeBlockQueryPlanAppended "cb" "X"⟩
        [.assistant "a" "c" 0 none [("cb", ⟨"cb", "abcX", false⟩)] false]) =
    handleSSEEvent "f1" 1 ⟨none, .codeBlockQueryPlanAppended "cb" "X"⟩
      [.assistant "a" "c" 0 none [("cb", ⟨"cb", "abcX", false⟩)] false]) :=
  ⟨by decide, by decide, by decide,
    c6_duplicate_code_block_chunk_not_reappended "f1" "f2" 1 2 none none
      "cb" "X" [.assistant "a" "c" 0 none [("cb", ⟨"cb", "abcX", false⟩)] false]
      "a" "c" 0 none [("cb", ⟨"cb", "abcX", false⟩)] false ⟨"cb", "abcX", false⟩
      (by decide) (by decide) (by decide)⟩

/-- C8 (amended).  For a thread of two one-user/one-assistant
interactions with DISTINCT creation timestamps, the conversion yields 4
messages, ordered by interaction `created_at` ascending with each
interaction contributing its user message first, and the result is
invariant under swapping the input order.  (With equal timestamps the
stable sort preserves input order and permutation invariance fails —
see the counterexample.) -/
theorem c8_convert_thread_orders_interactions_chronologically
    (fresh tid : String) (i1 i2 : Interaction)
    (a1 a2 : InteractionAssistantMessage)
    (h1 : i1.assistant_messages = [a1]) (h2 : i2.assistant_messages = [a2])
    (hne : i1.created_at ≠ i2.created_at) :
    (convertThreadToMessages fresh ⟨tid, [i1, i2]⟩).length = 4 ∧
    convertThreadToMessages fresh ⟨tid, [i1, i2]⟩ =
      convertThreadToMessages fresh ⟨tid, [i2, i1]⟩ ∧
    (i1.created_at < i2.created_at →
      convertThreadToMessages fresh ⟨tid, [i1, i2]⟩ =
        interactionToMessages fresh i1 ++ interactionToMessages fresh i2) ∧
    (i2.created_at < i1.created_at →
      convertThreadToMessages fresh ⟨tid, [i1, i2]⟩ =
        interactionToMessages fresh i2 ++ interactionToMessages fresh i1) := by
  have len1 : (interactionToMessages fresh i1).length = 2 := by
    simp [interactionToMessages, h1]
  have len2 : (interactionToMessages fresh i2).length = 2 := by
    simp [interactionToMessages, h2]
  rcases Nat.lt_trichotomy i1.created_at i2.created_at with h | h | h
  · rw [convert_pair, convert_pair, if_pos h.le, if_neg (Nat.not_le.mpr h)]
    refine ⟨?_, rfl, fun _ => rfl, fun h2' => absurd h2' (Nat.not_lt.mpr h.le)⟩
    simp [len1, len2]
  · exact absurd h hne
  · rw [convert_pair, convert_pair, if_neg (Nat.not_le.mpr h), if_pos h.le]
    refine ⟨?_, rfl, fun h1' => absurd h1' (Nat.not_lt.mpr h.le), fun _ => rfl⟩
    simp [len1, len2]

/-- Witness for C8 with creation timestamps 5 and 7. -/
theorem c8_convert_thread_orders_interactions_chronologically_witness :
    (⟨"i1", ⟨"u1", "hi", 1⟩, [⟨"a1", "yo", 2, none⟩], 5⟩ :
        Interaction).assistant_messages = [⟨"a1", "yo", 2, none⟩] ∧
    (⟨"i2", ⟨"u2", "hey", 3⟩, [⟨"a2", "sup", 4, none⟩], 7⟩ :
        Interaction).assistant_messages = [⟨"a2", "sup", 4, none⟩] ∧
    (5 : Nat) ≠ 7 ∧
    ((convertThreadToMessages "g"
        ⟨"t", [⟨"i1", ⟨"u1", "hi", 1⟩, [⟨"a1", "yo", 2, none⟩], 5⟩,
               ⟨"i2", ⟨"u2", "hey", 3⟩, [⟨"a2", "sup", 4, none⟩], 7⟩]⟩).length
        = 4 ∧
      convertThreadToMessages "g"
        ⟨"t", [⟨"i1", ⟨"u1", "hi", 1⟩, [⟨"a1", "yo", 2, none⟩], 5⟩,
               ⟨"i2", ⟨"u2", "hey", 3⟩, [⟨"a2", "sup", 4, none⟩], 7⟩]⟩ =
      convertThreadToMessages "g"
        ⟨"t", [⟨"i2", ⟨"u2", "hey", 3⟩, [⟨"a2", "sup", 4, none⟩], 7⟩,
               ⟨"i1", ⟨"u1", "hi", 1⟩, [⟨"a1", "yo", 2, none⟩], 5⟩]⟩ ∧
      ((⟨"i1", ⟨"u1", "hi", 1⟩, [⟨"a1", "yo", 2, none⟩], 5⟩ :
          Interaction).created_at <
        (⟨"i2", ⟨"u2", "hey", 3⟩, [⟨"a2", "sup", 4, none⟩], 7⟩ :
          Interaction).created_at →
        convertThreadToMessages "g"
          ⟨"t", [⟨"i1", ⟨"u1", "hi", 1⟩, [⟨"a1", "yo", 2, none⟩], 5⟩,
                 ⟨"i2", ⟨"u2", "hey", 3⟩, [⟨"a2", "sup", 4, none⟩], 7⟩]⟩ =
          interactionToMessages "g"
            ⟨"i1", ⟨"u1", "hi", 1⟩, [⟨"a1", "yo", 2, none⟩], 5⟩ ++
          interactionToMessages "g"
            ⟨"i2", ⟨"u2", "hey", 3⟩, [⟨"a2", "sup", 4, none⟩], 7⟩) ∧
      ((⟨"i2", ⟨"u2", "hey", 3⟩, [⟨"a2", "sup", 4, none⟩], 7⟩ :
          Interaction).created_at <
        (⟨"i1", ⟨"u1", "hi", 1⟩, [⟨"a1", "yo", 2, none⟩], 5⟩ :
          Interaction).created_at →
        convertThreadToMessages "g"
          ⟨"t", [⟨"i1", ⟨"u1", "hi", 1⟩, [⟨"a1", "yo", 2, none⟩], 5⟩,
                 ⟨"i2", ⟨"u2", "hey", 3⟩, [⟨"a2", "sup", 4, none⟩], 7⟩]⟩ =
          interactionToMessages "g"
            ⟨"i2", ⟨"u2", "hey", 3⟩, [⟨"a2", "sup", 4, none⟩], 7⟩ ++
          interactionToMessages "g"
            ⟨"i1", ⟨"u1", "hi", 1⟩, [⟨"a1", "yo", 2, none⟩], 5⟩)) :=
  ⟨by decide, by decide, by decide,
    c8_convert_thread_orders_interactions_chronologically "g" "t"
      ⟨"i1", ⟨"u1", "hi", 1⟩, [⟨"a1", "yo", 2, none⟩], 5⟩
      ⟨"i2", ⟨"u2", "hey", 3⟩, [⟨"a2", "sup", 4, none⟩], 7⟩
      ⟨"a1", "yo", 2, none⟩ ⟨"a2", "sup", 4, none⟩ rfl rfl (by decide)⟩

/-- C8 counterexample.  With EQUAL interaction creation timestamps the
stable sort keeps the input order, so swapping the two interactions
changes the converted message list: the result is not invariant under
permutation of the input array. -/
theorem c8_equal_timestamps_not_permutation_invariant :
    convertThreadToMessages "g"
      ⟨"t", [⟨"i1", ⟨"u1", "hi", 1⟩, [⟨"a1", "yo", 2, none⟩], 5⟩,
             ⟨"i2", ⟨"u2", "hey", 3⟩, [⟨"a2", "sup", 4, none⟩], 5⟩]⟩ ≠
    convertThreadToMessages "g"
      ⟨"t", [⟨"i2", ⟨"u2", "hey", 3⟩, [⟨"a2", "sup", 4, none⟩], 5⟩,
             ⟨"i1", ⟨"u1", "hi", 1⟩, [⟨"a1", "yo", 2, none⟩], 5⟩]⟩ := by
  decide

/-- C9.  For valid non-empty input and an idle state, the send handler
appends exactly one optimistic user message — carrying the trimmed
input — to the list, the append precedes the awaited start/continue
network call in the step trace, and the final list is the same whether
that call succeeds or fails (the optimistic message is never rolled
back). -/
theorem c9_send_appends_one_optimistic_user_message
    (genId : String) (now : Nat) (messages : List Message)
    (error0 : Option String) (currentThreadId : Option String)
    (message : String) (net : NetResult)
    (h : jsTrim message ≠ "") :
    (handleSendMessage genId now messages false error0 currentThreadId message
        net).messages = messages ++ [.user genId (jsTrim message) now] ∧
    ((handleSendMessage genId now messages false error0 currentThreadId message
        net).trace.takeWhile (fun s => !isAwaitStep s)).count
      SendStep.appendUserMessage = 1 ∧
    (handleSendMessage genId now messages false error0 currentThreadId message
        net).trace.count SendStep.appendUserMessage = 1 := by
  rcases currentThreadId with _ | tid <;> rcases net with tid2 | e <;>
    refine ⟨?_, ?_, ?_⟩ <;>
      simp [handleSendMessage, h, isAwaitStep, List.takeWhile, List.count_cons,
        List.count_nil]

/-- Witness for C9 on the failing start-thread path with input "hi ". -/
theorem c9_send_appends_one_optimistic_user_message_witness :
    jsTrim "hi " ≠ "" ∧
    ((handleSendMessage "g" 5 [] false none none "hi "
        (.failed "boom")).messages = [] ++ [.user "g" (jsTrim "hi ") 5] ∧
    ((handleSendMessage "g" 5 [] false none none "hi "
        (.failed "boom")).trace.takeWhile (fun s => !isAwaitStep s)).count
      SendStep.appendUserMessage = 1 ∧
    (handleSendMessage "g" 5 [] false none none "hi "
        (.failed "boom")).trace.count SendStep.appendUserMessage = 1) :=
  ⟨by decide,
    c9_send_appends_one_optimistic_user_message "g" 5 [] none none "hi "
      (.failed "boom") (by decide)⟩

end PromptQLChat
